import Mathlib

/-
Verification of the quantum-state visualization and simulation engine in
src/components/PulseControl.tsx: the Bloch-sphere pulse-trajectory generator
(Rodrigues rotations about horizontal axes, single vs. composite pulse),
the transport phase engine (per-frame state and waveform generation), and
the statistical curve generators (stretched-exponential decay, randomized
benchmarking).  Real-number arithmetic models the JavaScript floating-point
computations; `toFixed`-style decimal rounding is modelled exactly as
round-half-up at the given number of digits.
-/

set_option maxHeartbeats 1000000

noncomputable section

namespace Tweezer

/-- 3-D vector on (or near) the Bloch sphere, mirroring the
`{x, y, z}` records of `PulseControl.tsx`. -/
structure Vec3 where
  x : ℝ
  y : ℝ
  z : ℝ

/-- Rodrigues rotation of `v` about the axis `(cos axisAngle, 0, sin axisAngle)`
lying in the horizontal x–z plane, by angle `theta`; the body is the `rotate`
helper of `PulseControl.tsx` (lines 79–101) with its `ax, az, c, s, dot,
crossX, crossY, crossZ` intermediates substituted inline. -/
def rotate (v : Vec3) (axisAngle theta : ℝ) : Vec3 :=
  { x := v.x * Real.cos theta
        + (-(Real.sin axisAngle) * v.y) * Real.sin theta
        + Real.cos axisAngle * (v.x * Real.cos axisAngle + v.z * Real.sin axisAngle)
          * (1 - Real.cos theta)
  , y := v.y * Real.cos theta
        + (Real.sin axisAngle * v.x - Real.cos axisAngle * v.z) * Real.sin theta
        + 0
  , z := v.z * Real.cos theta
        + (Real.cos axisAngle * v.y) * Real.sin theta
        + Real.sin axisAngle * (v.x * Real.cos axisAngle + v.z * Real.sin axisAngle)
          * (1 - Real.cos theta) }

/-- Euclidean magnitude of a `Vec3`. -/
def norm3 (v : Vec3) : ℝ := Real.sqrt (v.x ^ 2 + v.y ^ 2 + v.z ^ 2)

/-- Euclidean distance between two `Vec3`s. -/
def dist3 (a b : Vec3) : ℝ :=
  Real.sqrt ((a.x - b.x) ^ 2 + (a.y - b.y) ^ 2 + (a.z - b.z) ^ 2)

/-- C5: for every vector `v`, axis angle and rotation angle, the Rodrigues
rotation implemented by `rotate` preserves the Euclidean norm exactly over
real arithmetic, so every vector the Rotator produces from a start vector of
magnitude `R` keeps magnitude `R`. -/
theorem c5_rotate_preserves_norm (v : Vec3) (axisAngle theta : ℝ) :
    norm3 (rotate v axisAngle theta) = norm3 v := by
  have hK : Real.cos axisAngle ^ 2 + Real.sin axisAngle ^ 2 = 1 :=
    Real.cos_sq_add_sin_sq axisAngle
  have hC : Real.cos theta ^ 2 + Real.sin theta ^ 2 = 1 :=
    Real.cos_sq_add_sin_sq theta
  have hsq : (rotate v axisAngle theta).x ^ 2 + (rotate v axisAngle theta).y ^ 2
      + (rotate v axisAngle theta).z ^ 2 = v.x ^ 2 + v.y ^ 2 + v.z ^ 2 := by
    simp only [rotate]
    linear_combination
      (v.x ^ 2 + v.y ^ 2 + v.z ^ 2
        - (Real.cos axisAngle * v.x + Real.sin axisAngle * v.z) ^ 2) * hC
      + (Real.sin theta ^ 2 * (v.x ^ 2 + v.y ^ 2 + v.z ^ 2)
        + (1 - Real.cos theta) ^ 2
          * (Real.cos axisAngle * v.x + Real.sin axisAngle * v.z) ^ 2) * hK
  unfold norm3
  rw [hsq]

/-! ### Pulse Trajectory Generator (PulseControl.tsx lines 76–217) -/

/-- Sphere radius used by the Bloch-sphere view (`const radius = 120`). -/
def radius : ℝ := 120

/-- Start vector at the top pole (`const startVec = { x: 0, y: -radius, z: 0 }`). -/
def startVec : Vec3 := ⟨0, -radius, 0⟩

/-- Target pole `(0, radius, 0)`, the `south`/`|1⟩` marker the pulse should reach. -/
def targetPole : Vec3 := ⟨0, radius, 0⟩

/-- Degrees-to-radians factor (`const toRad = Math.PI / 180`). -/
def toRad : ℝ := Real.pi / 180

/-- Calibration-error scale factor (`const scale = (1 + errorRate)`). -/
def scale (e : ℝ) : ℝ := 1 + e

/-- First composite leg angle: `180 * toRad * scale`. -/
def theta1 (e : ℝ) : ℝ := 180 * toRad * scale e

/-- First composite leg axis phase: `60 * toRad`. -/
def phi1 : ℝ := 60 * toRad

/-- Second composite leg angle: `360 * toRad * scale`. -/
def theta2 (e : ℝ) : ℝ := 360 * toRad * scale e

/-- Second composite leg axis phase: `300 * toRad`. -/
def phi2 : ℝ := 300 * toRad

/-- Third composite leg angle: `180 * toRad * scale`. -/
def theta3 (e : ℝ) : ℝ := 180 * toRad * scale e

/-- Third composite leg axis phase: `60 * toRad`. -/
def phi3 : ℝ := 60 * toRad

/-- Value of `curr` after iteration `i` of the loop in `addPath`:
`curr = rotate(start, axisPhase, angle * (i/steps))`. -/
def pathPoint (steps : ℕ) (angle axisPhase : ℝ) (start : Vec3) (i : ℕ) : Vec3 :=
  rotate start axisPhase (angle * ((i : ℝ) / (steps : ℝ)))

/-- The points pushed onto `scrofulousPoints` by one `addPath` call
(iterations `i = 1 .. steps`). -/
def addPathList (steps : ℕ) (angle axisPhase : ℝ) (start : Vec3) : List Vec3 :=
  (List.range steps).map fun j => pathPoint steps angle axisPhase start (j + 1)

/-- The value returned by `addPath`: `curr` after the final iteration
`i = steps`. -/
def addPathEnd (steps : ℕ) (angle axisPhase : ℝ) (start : Vec3) : Vec3 :=
  pathPoint steps angle axisPhase start steps

/-- Endpoint of the three-leg composite ("SCROFULOUS") trajectory:
`addPath(15, theta1, phi1, start)` then `addPath(25, theta2, phi2, ·)` then
`addPath(15, theta3, phi3, ·)` starting from `startVec`. -/
def scrofEnd (e : ℝ) : Vec3 :=
  addPathEnd 15 (theta3 e) phi3 (addPathEnd 25 (theta2 e) phi2
    (addPathEnd 15 (theta1 e) phi1 startVec))

/-- Number of steps of the simple (single-rotation) pulse (`simpleSteps = 20`). -/
def simpleSteps : ℕ := 20

/-- Total angle of the simple pulse: `Math.PI * (1 + errorRate)`. -/
def simpleTotalAngle (e : ℝ) : ℝ := Real.pi * (1 + e)

/-- The 3-D vector pushed at iteration `i` of the simple-pulse loop.  The loop
pushes the current vector BEFORE recomputing it, so iteration `0` pushes the
start vector and iteration `i ≥ 1` pushes
`rotate(startVec, 0, simpleTotalAngle * ((i-1)/simpleSteps))`. -/
def simplePointVec (e : ℝ) (i : ℕ) : Vec3 :=
  if i = 0 then startVec
  else rotate startVec 0 (simpleTotalAngle e * (((i : ℝ) - 1) / (simpleSteps : ℝ)))

/-- The full sequence of 3-D vectors behind `simplePoints`
(iterations `i = 0 .. simpleSteps`). -/
def simplePointsVec (e : ℝ) : List Vec3 :=
  (List.range (simpleSteps + 1)).map (simplePointVec e)

/-- The last stored simple-pulse vector (`simplePoints[simplePoints.length-1]`
before projection). -/
def simpleLast (e : ℝ) : Vec3 := simplePointVec e simpleSteps

lemma simplePointsVec_getLast (e : ℝ) :
    (simplePointsVec e).getLast? = some (simpleLast e) := by
  rw [simplePointsVec, List.range_succ, List.map_append, List.map_cons, List.map_nil,
    List.getLast?_concat, simpleLast]

/-- Rotating a vertical vector `(0, y, 0)` by `π` about any horizontal axis
negates it. -/
lemma rotate_vert_pi (a y : ℝ) : rotate ⟨0, y, 0⟩ a Real.pi = ⟨0, -y, 0⟩ := by
  simp only [rotate, Real.cos_pi, Real.sin_pi, Vec3.mk.injEq]
  refine ⟨by ring, by ring, by ring⟩

/-- Rotating any vector by `2π` about any horizontal axis is the identity. -/
lemma rotate_two_pi (v : Vec3) (a : ℝ) : rotate v a (2 * Real.pi) = v := by
  cases v with
  | mk x y z =>
    simp only [rotate, Real.cos_two_pi, Real.sin_two_pi, Vec3.mk.injEq]
    refine ⟨by ring, by ring, by ring⟩

lemma dist3_self (v : Vec3) : dist3 v v = 0 := by
  simp [dist3]

lemma scrofEnd_zero : scrofEnd 0 = startVec := by
  have h1 : addPathEnd 15 (theta1 0) phi1 startVec = targetPole := by
    rw [addPathEnd, pathPoint,
      show theta1 0 * ((15 : ℕ) / ((15 : ℕ) : ℝ)) = Real.pi by
        simp [theta1, toRad, scale]; ring]
    rw [startVec, rotate_vert_pi, targetPole, neg_neg]
  have h2 : addPathEnd 25 (theta2 0) phi2 targetPole = targetPole := by
    rw [addPathEnd, pathPoint,
      show theta2 0 * ((25 : ℕ) / ((25 : ℕ) : ℝ)) = 2 * Real.pi by
        simp [theta2, toRad, scale]; ring]
    rw [rotate_two_pi]
  have h3 : addPathEnd 15 (theta3 0) phi3 targetPole = startVec := by
    rw [addPathEnd, pathPoint,
      show theta3 0 * ((15 : ℕ) / ((15 : ℕ) : ℝ)) = Real.pi by
        simp [theta3, toRad, scale]; ring]
    rw [targetPole, rotate_vert_pi, startVec]
  rw [scrofEnd, h1, h2, h3]

lemma dist3_start_target : dist3 startVec targetPole = 2 * radius := by
  rw [dist3, startVec, targetPole]
  rw [show ((0 : ℝ) - 0) ^ 2 + (-radius - radius) ^ 2 + ((0 : ℝ) - 0) ^ 2
      = (2 * radius) ^ 2 by ring]
  exact Real.sqrt_sq (by norm_num [radius])

/-- C1 (code bug evaluation): at calibration error `0` the three-leg composite
sequence (half-turn at phase 60°, full-turn at phase 300°, half-turn at phase
60°) is the identity — its endpoint returns to the start pole `(0, -R, 0)` at
distance `2R = 240` from the target pole, which is not within `5%` of `R`;
the code's own comment admits the sequence "is actually identity if perfect"
while the rendered copy claims it converges on the target. -/
theorem c1_composite_returns_to_start :
    scrofEnd 0 = startVec ∧ dist3 (scrofEnd 0) targetPole = 2 * radius ∧
    ¬ dist3 (scrofEnd 0) targetPole < radius * (5 / 100) := by
  refine ⟨scrofEnd_zero, ?_, ?_⟩
  · rw [scrofEnd_zero, dist3_start_target]
  · rw [scrofEnd_zero, dist3_start_target, radius]
    norm_num

lemma simpleLast_one_nineteenth : simpleLast (1 / 19) = targetPole := by
  rw [simpleLast, simplePointVec, if_neg (by norm_num [simpleSteps])]
  rw [show simpleTotalAngle (1 / 19) * (((simpleSteps : ℝ) - 1) / (simpleSteps : ℝ))
      = Real.pi by
    simp only [simpleTotalAngle, simpleSteps]
    push_cast
    ring]
  rw [startVec, rotate_vert_pi, targetPole, neg_neg]

lemma simpleLast_zero :
    simpleLast 0 = ⟨0, radius * Real.cos (Real.pi / 20),
      -(radius * Real.sin (Real.pi / 20))⟩ := by
  rw [simpleLast, simplePointVec, if_neg (by norm_num [simpleSteps])]
  rw [show simpleTotalAngle 0 * (((simpleSteps : ℝ) - 1) / (simpleSteps : ℝ))
      = Real.pi - Real.pi / 20 by
    simp only [simpleTotalAngle, simpleSteps]
    push_cast
    ring]
  simp only [rotate, startVec, Real.cos_zero, Real.sin_zero, Real.cos_pi_sub,
    Real.sin_pi_sub, Vec3.mk.injEq]
  refine ⟨by ring, by ring, by ring⟩

lemma sin_pi_div_forty_gt : (0.076 : ℝ) < Real.sin (Real.pi / 40) := by
  have hgt : (3.141592 : ℝ) < Real.pi := Real.pi_gt_d6
  have hlt : Real.pi < 3.141593 := Real.pi_lt_d6
  have hx1 : (0.0785 : ℝ) < Real.pi / 40 := by linarith
  have hx2 : Real.pi / 40 < 0.0786 := by linarith
  have hcube := Real.sin_gt_sub_cube (by linarith : (0 : ℝ) < Real.pi / 40)
    (by linarith : Real.pi / 40 ≤ 1)
  nlinarith [pow_lt_pow_left₀ hx2 (by linarith : (0 : ℝ) ≤ Real.pi / 40)
    (by norm_num : (3 : ℕ) ≠ 0)]

/-- C2 (code bug evaluation): the simple-pulse loop pushes each point before
updating it, so the stored endpoint sits at angle `(19/20)·π·(1+e)` instead of
the full `π·(1+e)`.  Consequently at calibration error `1/19` the endpoint
lands exactly on the target pole (distance `0`), while at error `0` it misses
the target pole by more than `18` units (≈ 15.7% of `R = 120`): the endpoint
distance is neither zero at zero error nor monotone in `|e|`. -/
theorem c2_single_pulse_endpoint_off_by_one :
    dist3 (simpleLast (1 / 19)) targetPole = 0 ∧
    18 < dist3 (simpleLast 0) targetPole := by
  constructor
  · rw [simpleLast_one_nineteenth, dist3_self]
  · rw [simpleLast_zero, dist3, targetPole]
    have hpy : Real.sin (Real.pi / 20) ^ 2 + Real.cos (Real.pi / 20) ^ 2 = 1 :=
      Real.sin_sq_add_cos_sq _
    have hcos : Real.cos (Real.pi / 20) = 1 - 2 * Real.sin (Real.pi / 40) ^ 2 := by
      rw [show (Real.pi / 20 : ℝ) = 2 * (Real.pi / 40) by ring, Real.cos_two_mul]
      nlinarith [Real.sin_sq_add_cos_sq (Real.pi / 40)]
    have hsin := sin_pi_div_forty_gt
    rw [show ((0 : ℝ) - 0) ^ 2 + (radius * Real.cos (Real.pi / 20) - radius) ^ 2
        + (-(radius * Real.sin (Real.pi / 20)) - 0) ^ 2
        = radius ^ 2 * ((Real.cos (Real.pi / 20) - 1) ^ 2
          + Real.sin (Real.pi / 20) ^ 2) by ring]
    rw [Real.lt_sqrt (by norm_num : (0 : ℝ) ≤ 18)]
    rw [radius]
    nlinarith [hsin, hpy, hcos]

/-! ### Transport Phase Engine (PulseControl.tsx lines 937–1043) -/

/-- Transport start coordinate (`const startX = 100`). -/
def startX : ℝ := 100

/-- Transport end coordinate (`const endX = 700`). -/
def endX : ℝ := 700

/-- d3's `easeCubicInOut`: `((t *= 2) <= 1 ? t*t*t : (t -= 2)*t*t + 2) / 2`
(modelled from the d3-ease library the source calls). -/
def easeCubicInOut (t : ℝ) : ℝ :=
  if 2 * t ≤ 1 then (2 * t) ^ 3 / 2 else ((2 * t - 2) ^ 3 + 2) / 2

/-- Per-frame state `{stage, slmPower, aodPower, x}` derived purely from the
normalized cycle time `t`. -/
structure FrameState where
  stage : String
  slmPower : ℝ
  aodPower : ℝ
  x : ℝ

/-- The per-frame derivation inside `animate` (lines 976–1005): the four-branch
schedule on normalized time `t = elapsed / totalDuration`. -/
def frameState (t : ℝ) : FrameState :=
  if t < 0.15 then
    { stage := "Handover (SLM → AOD)", slmPower := 1 - t / 0.15,
      aodPower := t / 0.15, x := startX }
  else if t < 0.75 then
    { stage := "Diagonal Transport", slmPower := 0, aodPower := 1,
      x := startX + (endX - startX) * easeCubicInOut ((t - 0.15) / 0.6) }
  else if t < 0.9 then
    { stage := "Handover (AOD → SLM)", slmPower := (t - 0.75) / 0.15,
      aodPower := 1 - (t - 0.75) / 0.15, x := endX }
  else
    { stage := "Resetting...", slmPower := 1, aodPower := 0, x := startX }

/-- SLM waveform amplitude `gpS` at sample time `gt` (the "Live Graph logic
(simplified)" loop, lines 1017–1030).  Note the final branch yields `0`,
unlike the per-frame Reset branch. -/
def gpS (gt : ℝ) : ℝ :=
  if gt < 0.15 then 1 - gt / 0.15
  else if gt < 0.75 then 0
  else if gt < 0.9 then (gt - 0.75) / 0.15
  else 0

/-- AOD waveform amplitude `gpA` at sample time `gt`. -/
def gpA (gt : ℝ) : ℝ :=
  if gt < 0.15 then gt / 0.15
  else if gt < 0.75 then 1
  else if gt < 0.9 then 1 - (gt - 0.75) / 0.15
  else 0

/-- The SLM waveform polyline `dataSLM`: 100 screen points
`[gt*700, 100 - gpS*90]` for `gt = i/100`, `i = 0..99`. -/
def dataSLM : List (ℝ × ℝ) :=
  (List.range 100).map fun i => ((i : ℝ) / 100 * 700, 100 - gpS ((i : ℝ) / 100) * 90)

/-- The AOD waveform polyline `dataAOD`: 100 screen points
`[gt*700, 100 - gpA*90]` for `gt = i/100`, `i = 0..99`. -/
def dataAOD : List (ℝ × ℝ) :=
  (List.range 100).map fun i => ((i : ℝ) / 100 * 700, 100 - gpA ((i : ℝ) / 100) * 90)

/-- C6: over a full cycle `t ∈ [0,1)` the stage label partitions the cycle into
exactly four contiguous phases in fixed order — start handover on `[0, 0.15)`,
transport on `[0.15, 0.75)`, end handover on `[0.75, 0.9)` and reset on
`[0.9, 1)` — with no gaps, overlaps, or skipped phase (each phase is attained). -/
theorem c6_stage_partition :
    (∀ t : ℝ, 0 ≤ t → t < 1 →
      ((frameState t).stage = "Handover (SLM → AOD)" ↔ 0 ≤ t ∧ t < 0.15) ∧
      ((frameState t).stage = "Diagonal Transport" ↔ 0.15 ≤ t ∧ t < 0.75) ∧
      ((frameState t).stage = "Handover (AOD → SLM)" ↔ 0.75 ≤ t ∧ t < 0.9) ∧
      ((frameState t).stage = "Resetting..." ↔ 0.9 ≤ t ∧ t < 1)) ∧
    (frameState 0).stage = "Handover (SLM → AOD)" ∧
    (frameState 0.5).stage = "Diagonal Transport" ∧
    (frameState 0.8).stage = "Handover (AOD → SLM)" ∧
    (frameState 0.95).stage = "Resetting..." := by
  constructor
  · intro t h0 h1
    rw [frameState]
    split_ifs with ha hb hc <;> dsimp only
    · exact ⟨⟨fun _ => ⟨h0, ha⟩, fun _ => rfl⟩,
        ⟨fun hs => absurd hs (by decide), fun h => absurd h.1 (by linarith)⟩,
        ⟨fun hs => absurd hs (by decide), fun h => absurd h.1 (by linarith)⟩,
        ⟨fun hs => absurd hs (by decide), fun h => absurd h.1 (by linarith)⟩⟩
    · exact ⟨⟨fun hs => absurd hs (by decide), fun h => absurd h.2 ha⟩,
        ⟨fun _ => ⟨le_of_not_lt ha, hb⟩, fun _ => rfl⟩,
        ⟨fun hs => absurd hs (by decide), fun h => absurd h.1 (by linarith)⟩,
        ⟨fun hs => absurd hs (by decide), fun h => absurd h.1 (by linarith)⟩⟩
    · exact ⟨⟨fun hs => absurd hs (by decide), fun h => absurd h.2 ha⟩,
        ⟨fun hs => absurd hs (by decide), fun h => absurd h.2 hb⟩,
        ⟨fun _ => ⟨le_of_not_lt hb, hc⟩, fun _ => rfl⟩,
        ⟨fun hs => absurd hs (by decide), fun h => absurd h.1 (by linarith)⟩⟩
    · exact ⟨⟨fun hs => absurd hs (by decide), fun h => absurd h.2 ha⟩,
        ⟨fun hs => absurd hs (by decide), fun h => absurd h.2 hb⟩,
        ⟨fun hs => absurd hs (by decide), fun h => absurd h.2 hc⟩,
        ⟨fun _ => ⟨le_of_not_lt hc, h1⟩, fun _ => rfl⟩⟩
  · refine ⟨?_, ?_, ?_, ?_⟩ <;> norm_num [frameState]

/-- C6 witness: the partition theorem applied at `t = 0.3`. -/
theorem c6_stage_partition_witness :
    (0 : ℝ) ≤ 0.3 ∧ (0.3 : ℝ) < 1 ∧
      ((frameState 0.3).stage = "Diagonal Transport" ↔
        0.15 ≤ (0.3 : ℝ) ∧ (0.3 : ℝ) < 0.75) :=
  ⟨by norm_num, by norm_num,
    (c6_stage_partition.1 0.3 (by norm_num) (by norm_num)).2.1⟩

/-- C7: for every normalized cycle time `t ∈ [0,1)` both trap intensities
derived by the per-frame computation lie in `[0, 1]`. -/
theorem c7_powers_within_unit_interval :
    ∀ t : ℝ, 0 ≤ t → t < 1 →
      0 ≤ (frameState t).slmPower ∧ (frameState t).slmPower ≤ 1 ∧
      0 ≤ (frameState t).aodPower ∧ (frameState t).aodPower ≤ 1 := by
  intro t h0 h1
  rw [frameState]
  split_ifs with ha hb hc <;> dsimp only <;>
    refine ⟨?_, ?_, ?_, ?_⟩ <;>
    first
    | (norm_num; linarith)
    | linarith

/-- C7 witness: the intensity bounds at `t = 0.8`. -/
theorem c7_powers_within_unit_interval_witness :
    (0 : ℝ) ≤ 0.8 ∧ (0.8 : ℝ) < 1 ∧
      (0 ≤ (frameState 0.8).slmPower ∧ (frameState 0.8).slmPower ≤ 1 ∧
        0 ≤ (frameState 0.8).aodPower ∧ (frameState 0.8).aodPower ≤ 1) :=
  ⟨by norm_num, by norm_num,
    c7_powers_within_unit_interval 0.8 (by norm_num) (by norm_num)⟩

/-- C3 (amended): at every waveform sample time `gt = i/100`, `i < 100`, the
AOD waveform amplitude equals the per-frame `aodPower`, and the SLM waveform
amplitude equals the per-frame `slmPower` on the Handover and Transport phases
(`i < 90`); on the Reset phase (`90 ≤ i`) the SLM waveform shows `0` while the
per-frame computation holds `slmPower = 1`, so the two disagree there. -/
theorem c3_waveform_matches_frame_except_reset :
    ∀ i : ℕ, i < 100 →
      gpA ((i : ℝ) / 100) = (frameState ((i : ℝ) / 100)).aodPower ∧
      (i < 90 → gpS ((i : ℝ) / 100) = (frameState ((i : ℝ) / 100)).slmPower) ∧
      (90 ≤ i → gpS ((i : ℝ) / 100) = 0 ∧
        (frameState ((i : ℝ) / 100)).slmPower = 1) := by
  intro i _
  rw [gpA, gpS, frameState]
  split_ifs with ha hb hc <;> dsimp only
  · refine ⟨rfl, fun _ => rfl, fun h => absurd ha (by
      have : (90 : ℝ) ≤ (i : ℝ) := by exact_mod_cast h
      linarith)⟩
  · refine ⟨rfl, fun _ => rfl, fun h => absurd hb (by
      have : (90 : ℝ) ≤ (i : ℝ) := by exact_mod_cast h
      linarith)⟩
  · refine ⟨rfl, fun _ => rfl, fun h => absurd hc (by
      have : (90 : ℝ) ≤ (i : ℝ) := by exact_mod_cast h
      linarith)⟩
  · refine ⟨rfl, fun h => ?_, fun _ => ⟨rfl, rfl⟩⟩
    exfalso
    have h90 : (i : ℝ) < 90 := by exact_mod_cast h
    have := le_of_not_lt hc
    linarith

/-- C3 counterexample: at the sample `i = 90` (time `0.9`, start of Reset) the
SLM waveform amplitude is `0` but the per-frame computation yields
`slmPower = 1`, so the waveform does not agree with the frame derivation over
the entire cycle as the claim states. -/
theorem c3_waveform_reset_counterexample :
    gpS ((90 : ℝ) / 100) ≠ (frameState ((90 : ℝ) / 100)).slmPower := by
  rw [gpS, frameState]
  norm_num

/-- C3 witness: agreement at sample `i = 50` (Transport phase). -/
theorem c3_waveform_matches_frame_witness :
    (50 : ℕ) < 100 ∧
      gpA (((50 : ℕ) : ℝ) / 100) = (frameState (((50 : ℕ) : ℝ) / 100)).aodPower :=
  ⟨by norm_num, (c3_waveform_matches_frame_except_reset 50 (by norm_num)).1⟩

/-! ### Statistical Curve Generators (PulseControl.tsx lines 285–353) -/

/-- JS `parseFloat(x.toFixed(d))` modelled exactly: round half-up at `d`
decimal digits. -/
def toFixed (d : ℕ) (x : ℝ) : ℝ := (⌊x * 10 ^ d + 1 / 2⌋ : ℤ) / 10 ^ d

/-- One `{time, fit, measured}` record of `generateDecayData`. -/
structure DecaySample where
  time : ℝ
  fit : ℝ
  measured : Option ℝ

/-- The record pushed by `generateDecayData` at grid index `i`; `rnd i` models
the `Math.random()` draw of iteration `i`. -/
def decaySample (tau maxTime : ℝ) (points : ℕ) (noise exponent : ℝ)
    (rnd : ℕ → ℝ) (i : ℕ) : DecaySample :=
  { time := toFixed 1 (maxTime / points * i)
  , fit := toFixed 3 (Real.exp (-((maxTime / points * i / tau) ^ exponent)))
  , measured :=
      if i % 5 = 0 then
        some (toFixed 3 (Real.exp (-((maxTime / points * i / tau) ^ exponent))
          + (rnd i - 0.5) * noise))
      else none }

/-- The full list returned by `generateDecayData` (`i = 0 .. points`). -/
def generateDecayData (tau maxTime : ℝ) (points : ℕ) (noise exponent : ℝ)
    (rnd : ℕ → ℝ) : List DecaySample :=
  (List.range (points + 1)).map (decaySample tau maxTime points noise exponent rnd)

/-- Rounding half-up at `d` digits moves a value by at most `1/(2·10^d)`. -/
lemma abs_toFixed_sub (d : ℕ) (x : ℝ) : |toFixed d x - x| ≤ 1 / (2 * 10 ^ d) := by
  have hp : (0 : ℝ) < 10 ^ d := by positivity
  have h1 := Int.floor_le (x * 10 ^ d + 1 / 2)
  have h2 := Int.lt_floor_add_one (x * 10 ^ d + 1 / 2)
  have key : |((⌊x * 10 ^ d + 1 / 2⌋ : ℤ) : ℝ) - x * 10 ^ d| ≤ 1 / 2 :=
    abs_le.mpr ⟨by linarith, by linarith⟩
  rw [toFixed, show ((⌊x * 10 ^ d + 1 / 2⌋ : ℤ) : ℝ) / 10 ^ d - x
      = (((⌊x * 10 ^ d + 1 / 2⌋ : ℤ) : ℝ) - x * 10 ^ d) / 10 ^ d by
        field_simp
        ring,
    abs_div, abs_of_pos hp, show (1 : ℝ) / (2 * 10 ^ d) = (1 / 2) / 10 ^ d by ring]
  gcongr

lemma exp_neg_one_bounds :
    (0.3678 : ℝ) < Real.exp (-1) ∧ Real.exp (-1) < (0.36788 : ℝ) := by
  have h1 : Real.exp 1 < 2.7182818286 := Real.exp_one_lt_d9
  have h2 : (2.7182818283 : ℝ) < Real.exp 1 := Real.exp_one_gt_d9
  have hmul : Real.exp (-1) * Real.exp 1 = 1 := by
    rw [← Real.exp_add]
    norm_num
  have hpos : (0 : ℝ) < Real.exp (-1) := Real.exp_pos _
  constructor
  · nlinarith [hmul, h1, hpos]
  · nlinarith [hmul, h2, hpos]

lemma toFixed_exp_neg_one : toFixed 3 (Real.exp (-1)) = 0.368 := by
  obtain ⟨hlo, hhi⟩ := exp_neg_one_bounds
  have hfloor : ⌊Real.exp (-1) * 10 ^ 3 + 1 / 2⌋ = (368 : ℤ) := by
    rw [Int.floor_eq_iff]
    constructor <;> push_cast <;> nlinarith [hlo, hhi]
  rw [toFixed, hfloor]
  norm_num

lemma toFixed_three_one : toFixed 3 1 = 1 := by
  have hfloor : ⌊(1 : ℝ) * 10 ^ 3 + 1 / 2⌋ = (1000 : ℤ) := by
    rw [Int.floor_eq_iff]
    constructor <;> push_cast <;> norm_num
  rw [toFixed, hfloor]
  norm_num

/-- C8 (amended): the stored `fit` at grid index `i` is
`exp(-(t/tau)^alpha)` rounded half-up to 3 decimal digits, hence within
`1/2000` of the exact value; `fit(0) = 1` exactly for `alpha ≠ 0`; and in the
end-to-end scenario `tau = 12.6, maxTime = 20, points = 100, noise = 0,
alpha = 1` the record at grid time `t = 12.6` stores `fit = 0.368`, within
`10⁻³` of `exp(-1)`. -/
theorem c8_decay_fit_rounded :
    (∀ (tau maxTime : ℝ) (points : ℕ) (noise exponent : ℝ) (rnd : ℕ → ℝ) (i : ℕ),
      |(decaySample tau maxTime points noise exponent rnd i).fit
        - Real.exp (-((maxTime / points * i / tau) ^ exponent))| ≤ 1 / 2000) ∧
    (∀ (tau maxTime : ℝ) (points : ℕ) (noise exponent : ℝ) (rnd : ℕ → ℝ),
      exponent ≠ 0 →
      (decaySample tau maxTime points noise exponent rnd 0).fit = 1) ∧
    (∀ rnd : ℕ → ℝ,
      (decaySample 12.6 20 100 0 1 rnd 63).fit = 0.368 ∧
      |(decaySample 12.6 20 100 0 1 rnd 63).fit - Real.exp (-1)| < 1 / 1000) := by
  have harg : (20 : ℝ) / ((100 : ℕ) : ℝ) * ((63 : ℕ) : ℝ) / 12.6 = 1 := by
    push_cast
    norm_num
  have hfit63 : ∀ rnd : ℕ → ℝ, (decaySample 12.6 20 100 0 1 rnd 63).fit = 0.368 := by
    intro rnd
    rw [decaySample]
    dsimp only
    rw [harg, Real.rpow_one, toFixed_exp_neg_one]
  refine ⟨?_, ?_, ?_⟩
  · intro tau maxTime points noise exponent rnd i
    have := abs_toFixed_sub 3
      (Real.exp (-((maxTime / points * i / tau) ^ exponent)))
    rw [decaySample]
    dsimp only
    calc |toFixed 3 (Real.exp (-((maxTime / points * i / tau) ^ exponent)))
          - Real.exp (-((maxTime / points * i / tau) ^ exponent))|
        ≤ 1 / (2 * 10 ^ 3) := this
      _ ≤ 1 / 2000 := by norm_num
  · intro tau maxTime points noise exponent rnd hexp
    rw [decaySample]
    dsimp only
    rw [show maxTime / points * ((0 : ℕ) : ℝ) / tau = 0 by push_cast; ring,
      Real.zero_rpow hexp, neg_zero, Real.exp_zero, toFixed_three_one]
  · intro rnd
    refine ⟨hfit63 rnd, ?_⟩
    rw [hfit63 rnd]
    obtain ⟨hlo, hhi⟩ := exp_neg_one_bounds
    rw [abs_lt]
    constructor <;> nlinarith [hlo, hhi]

/-- C8 counterexample: in the scenario `tau = 12.6, maxTime = 20,
points = 100, noise = 0, alpha = 1`, the record at grid index `63`
(grid time `t = 12.6 = tau`) stores `fit = 0.368`, which is not equal to
`exp(-(t/tau)^alpha) = exp(-1) ≈ 0.3678794` — `toFixed(3)` rounding makes the
claimed exact equality false. -/
theorem c8_decay_fit_exact_counterexample :
    (decaySample 12.6 20 100 0 1 (fun _ => 0) 63).fit = 0.368 ∧
    (0.368 : ℝ) ≠ Real.exp (-((20 / ((100 : ℕ) : ℝ) * ((63 : ℕ) : ℝ) / 12.6)
      ^ (1 : ℝ))) := by
  have harg : (20 : ℝ) / ((100 : ℕ) : ℝ) * ((63 : ℕ) : ℝ) / 12.6 = 1 := by
    push_cast
    norm_num
  constructor
  · rw [decaySample]
    dsimp only
    rw [harg, Real.rpow_one, toFixed_exp_neg_one]
  · rw [harg, Real.rpow_one]
    obtain ⟨hlo, hhi⟩ := exp_neg_one_bounds
    intro heq
    rw [← heq] at hhi
    norm_num at hhi

/-- C8 witness: the amended theorem applied in the concrete scenario
(`alpha = 1 ≠ 0`, constant zero noise source). -/
theorem c8_decay_fit_rounded_witness :
    ((1 : ℝ) ≠ 0 ∧ (decaySample 12.6 20 100 0 1 (fun _ => 0) 0).fit = 1) ∧
    (decaySample 12.6 20 100 0 1 (fun _ => 0) 63).fit = 0.368 :=
  ⟨⟨by norm_num, c8_decay_fit_rounded.2.1 12.6 20 100 0 1 (fun _ => 0) (by norm_num)⟩,
    (c8_decay_fit_rounded.2.2 (fun _ => 0)).1⟩

/-- JS `parseFloat(x.toFixed(4))` over the exact rationals of the RB
generator: round half-up at 4 decimal digits. -/
def toFixed4 (x : ℚ) : ℚ := ((⌊x * 10 ^ 4 + 1 / 2⌋ : ℤ) : ℚ) / 10 ^ 4

/-- The fixed sequence-length list of `generateRBData`
(`const lengths = [2, 10, 20, 40, 80, 150, 300, 500]`). -/
def rbLengths : List ℕ := [2, 10, 20, 40, 80, 150, 300, 500]

/-- Baseline depolarizing parameter (`const p_standard = 0.9985`). -/
def p_standard : ℚ := 0.9985

/-- Interleaved depolarizing parameter (`const p_irb = 0.9985 * 0.9995`). -/
def p_irb : ℚ := 0.9985 * 0.9995

/-- The fitted-curve model `0.5 + 0.5 * p^m` (`avgProbStd` / `avgProbIrb`). -/
def avgProb (p : ℚ) (m : ℕ) : ℚ := 0.5 + 0.5 * p ^ m

/-- The two chart modes of `generateRBData`. -/
inductive RBMode
  | standard
  | irb
deriving DecidableEq

/-- The `type: 'line'` record pushed once per length `m`:
`{length, standard_fit, irb_fit}` with `irb_fit` null unless the mode is
`'irb'`. -/
structure RBLineRecord where
  length : ℕ
  standard_fit : ℚ
  irb_fit : Option ℚ
deriving DecidableEq

/-- The fitted-curve record of `generateRBData` for length `m` in the given
mode. -/
def rbLineRecord (mode : RBMode) (m : ℕ) : RBLineRecord :=
  { length := m
  , standard_fit := toFixed4 (avgProb p_standard m)
  , irb_fit := if mode = RBMode.irb then some (toFixed4 (avgProb p_irb m)) else none }

/-- The fitted-curve records emitted by one `generateRBData` run, one per
length of `rbLengths` (the scatter records carry no fit fields and are
omitted). -/
def rbLineRecords (mode : RBMode) : List RBLineRecord :=
  rbLengths.map (rbLineRecord mode)

/-- C9: for every length `m` in the fixed list and every depolarizing
parameter `p ≥ 0` and interleaved fidelity factor `0 ≤ f < 1`, the interleaved
fitted value `0.5 + 0.5·(p·f)^m` is at most the baseline fitted value
`0.5 + 0.5·p^m`, both exactly and after the generator's 4-digit rounding, so
the interleaved-mode fitted curve lies at or below the baseline curve at every
shared length (the code instantiates `p = 0.9985`, `f = 0.9995`). -/
theorem c9_irb_fit_below_standard :
    ∀ (p f : ℚ) (m : ℕ), m ∈ rbLengths → 0 ≤ p → 0 ≤ f → f < 1 →
      avgProb (p * f) m ≤ avgProb p m ∧
      toFixed4 (avgProb (p * f) m) ≤ toFixed4 (avgProb p m) := by
  intro p f m _ hp hf hf1
  have hpow : (p * f) ^ m ≤ p ^ m :=
    pow_le_pow_left₀ (mul_nonneg hp hf) (mul_le_of_le_one_right hp (le_of_lt hf1)) m
  have h1 : avgProb (p * f) m ≤ avgProb p m := by
    rw [avgProb, avgProb]
    linarith
  refine ⟨h1, ?_⟩
  rw [toFixed4, toFixed4]
  have hfloor : ⌊avgProb (p * f) m * 10 ^ 4 + 1 / 2⌋
      ≤ ⌊avgProb p m * 10 ^ 4 + 1 / 2⌋ := by
    apply Int.floor_le_floor
    nlinarith [h1]
  have hcast : ((⌊avgProb (p * f) m * 10 ^ 4 + 1 / 2⌋ : ℤ) : ℚ)
      ≤ ((⌊avgProb p m * 10 ^ 4 + 1 / 2⌋ : ℤ) : ℚ) := by exact_mod_cast hfloor
  gcongr

/-- C9 witness: the inequality at the code's own parameters
`p = 0.9985`, `f = 0.9995`, shortest length `m = 2`. -/
theorem c9_irb_fit_below_standard_witness :
    (2 ∈ rbLengths ∧ (0 : ℚ) ≤ 0.9985 ∧ (0 : ℚ) ≤ 0.9995 ∧ (0.9995 : ℚ) < 1) ∧
      toFixed4 (avgProb ((0.9985 : ℚ) * 0.9995) 2) ≤ toFixed4 (avgProb 0.9985 2) :=
  ⟨⟨by decide, by norm_num, by norm_num, by norm_num⟩,
    (c9_irb_fit_below_standard 0.9985 0.9995 2 (by decide) (by norm_num)
      (by norm_num) (by norm_num)).2⟩

/-- C10 counterexample: the first fitted-curve record (length `m = 2`) stores
`standard_fit = 0.9985`, the 4-digit rounding of `0.5 + 0.5·0.9985² =
0.998501125`, so its standard fit value is NOT equal to `0.5 + 0.5·0.9985^m`
as the claim states. -/
theorem c10_standard_fit_rounding_counterexample :
    (rbLineRecords RBMode.standard).head? = some (rbLineRecord RBMode.standard 2) ∧
    (rbLineRecord RBMode.standard 2).standard_fit
      ≠ 0.5 + 0.5 * (0.9985 : ℚ) ^ 2 := by
  have hval : (rbLineRecord RBMode.standard 2).standard_fit = 0.9985 := by
    have hfloor : ⌊avgProb p_standard 2 * 10 ^ 4 + 1 / 2⌋ = (9985 : ℤ) := by
      rw [show avgProb p_standard 2 * 10 ^ 4 + 1 / 2
          = 9985.51125 by rw [avgProb, p_standard]; norm_num]
      rw [Int.floor_eq_iff]
      norm_num
    rw [rbLineRecord]
    dsimp only
    rw [toFixed4, hfloor]
    norm_num
  refine ⟨rfl, ?_⟩
  rw [hval]
  norm_num

/-- C10 (amended): the fitted-curve records are mode-independent in their
standard component — in both modes `generateRBData` emits exactly one
fitted-curve record per length `m` of the fixed list, whose `standard_fit`
equals the 4-digit rounding of `0.5 + 0.5·0.9985^m` (identical across the two
modes), while the `irb_fit` field is non-null exactly when the mode is
`'irb'`. -/
theorem c10_standard_fit_mode_independent :
    ∀ mode : RBMode,
      (rbLineRecords mode).map (fun r => (r.length, r.standard_fit))
        = rbLengths.map (fun m => (m, toFixed4 (avgProb p_standard m))) ∧
      rbLengths.Nodup ∧
      (rbLineRecords mode).map (fun r => r.irb_fit.isSome)
        = List.replicate rbLengths.length (decide (mode = RBMode.irb)) := by
  intro mode
  cases mode <;> exact ⟨rfl, by decide, rfl⟩

end Tweezer
